import Mathlib

/-!
Verification of the password-generator core (`src/Password_Generator.py`)
against its natural-language specification.

The Python program is embedded shallowly:
* `random.choice(chars)` is modelled by an arbitrary draw stream
  `g : Nat → Nat`; the i-th drawn character is `chars[g i % chars.length]`,
  which is exactly the reachable behaviour of a uniform choice.
* Python's per-character classifiers `islower` / `isupper` / `isdigit`
  are modelled at the ASCII level by `Char.isLower` / `Char.isUpper` /
  `Char.isDigit`.
* The history file is modelled at the boundary of `json.load` /
  `json.dump`: the durable storage is `none` (no file), a well-formed
  JSON value, or malformed text that `json.load` would reject.
* `pandas.DataFrame(history).to_csv(filename, index=False)` is modelled
  as the list of output lines: a header naming the columns of the frame
  followed by one CSV-encoded row per entry (fields quoted exactly when
  they contain a delimiter, quote or newline, as csv.QUOTE_MINIMAL does);
  a frame built from an empty history has no columns, so its header line
  is empty and no rows follow.
* Lengths are `Int` (a Tk `IntVar` can hold any integer);
  `range(length)` in Python performs `length.toNat` draws.
-/

namespace PasswordGenerator

/-- Python's `string.ascii_uppercase`. -/
def asciiUppercase : List Char := "ABCDEFGHIJKLMNOPQRSTUVWXYZ".data

/-- Python's `string.ascii_lowercase`. -/
def asciiLowercase : List Char := "abcdefghijklmnopqrstuvwxyz".data

/-- Python's `string.digits`. -/
def asciiDigits : List Char := "0123456789".data

/-- The fixed symbol literal of lines 102 and 133 of the source. -/
def symbolChars : List Char := "!@#$%^&*()_+-=[]\x7b\x7d|;:,.<>?".data

/-- The generation options read from the widgets: the requested length and
the four class flags (`length_var`, `upper_var`, `lower_var`, `digits_var`,
`symbols_var`). -/
structure GenerationOptions where
  length : Int
  upper : Bool
  lower : Bool
  digits : Bool
  symbols : Bool
deriving DecidableEq, Repr

/-- Lines 94–102: the character set assembled from the selected classes,
in the fixed order uppercase, lowercase, digits, symbols. -/
def buildCharacterSet (o : GenerationOptions) : List Char :=
  (if o.upper then asciiUppercase else [])
    ++ (if o.lower then asciiLowercase else [])
    ++ (if o.digits then asciiDigits else [])
    ++ (if o.symbols then symbolChars else [])

/-- One `random.choice chars` given the raw draw `k` of the stream:
an index into `chars` reduced modulo its length. -/
def pick (chars : List Char) (k : Nat) : Char :=
  chars.getD (k % chars.length) 'A'

/-- Line 108: `"".join(random.choice(chars) for _ in range(length))`. -/
def samplePassword (chars : List Char) (length : Int) (g : Nat → Nat) : String :=
  String.mk ((List.range length.toNat).map (fun i => pick chars (g i)))

/-- The three strength categories rendered by `check_strength`. -/
inductive Strength where
  | weak
  | medium
  | strong
deriving DecidableEq, Repr

/-- The literal label strings returned at lines 138, 141 and 144. -/
def strengthLabel : Strength → String
  | .weak => "🔴 Слабый"
  | .medium => "🟡 Средний"
  | .strong => "🟢 Сильный"

/-- Lines 124–134: the five-predicate score of `check_strength`. -/
def strengthScore (password : List Char) : Nat :=
  (if 12 ≤ password.length then 1 else 0)
    + (if password.any (fun c => c.isLower) then 1 else 0)
    + (if password.any (fun c => c.isUpper) then 1 else 0)
    + (if password.any (fun c => c.isDigit) then 1 else 0)
    + (if password.any (fun c => symbolChars.contains c) then 1 else 0)

/-- Lines 136–144: the score-to-label mapping of `check_strength`. -/
def check_strength (password : String) : Strength :=
  let score := strengthScore password.data
  if score ≤ 2 then .weak
  else if score ≤ 4 then .medium
  else .strong

/-- One element of the `password_history.json` array
(lines 115–119): password, timestamp and rendered strength label. -/
structure HistoryEntry where
  password : String
  timestamp : String
  strength : String
deriving DecidableEq, Repr

/-- JSON values, the codomain of `json.load`. -/
inductive Json where
  | null
  | bool (b : Bool)
  | num (n : Int)
  | str (s : String)
  | arr (elements : List Json)
  | obj (fields : List (String × Json))

/-- Serialization of one history entry, with the keys in the insertion
order of the dict literal at lines 115–119. -/
def entryToJson (e : HistoryEntry) : Json :=
  .obj [("password", .str e.password),
        ("timestamp", .str e.timestamp),
        ("strength", .str e.strength)]

/-- Serialization of the whole history list, as `json.dump` writes it. -/
def historyToJson (h : List HistoryEntry) : Json :=
  .arr (h.map entryToJson)

/-- Decoding one entry of the expected serialized form. -/
def jsonToEntry : Json → Option HistoryEntry
  | .obj [("password", .str p), ("timestamp", .str t), ("strength", .str s)] =>
      some ⟨p, t, s⟩
  | _ => none

/-- Decoding a list of serialized entries; fails on the first element
that is not of the expected form. -/
def jsonToEntries : List Json → Option (List HistoryEntry)
  | [] => some []
  | j :: rest =>
    match jsonToEntry j, jsonToEntries rest with
    | some e, some t => some (e :: t)
    | _, _ => none

/-- Decoding the expected serialized form of a whole history. -/
def jsonToHistory : Json → Option (List HistoryEntry)
  | .arr elements => jsonToEntries elements
  | _ => none

/-- The content found at `password_history.json` when the file exists:
either text that parses to a JSON value, or malformed text that
`json.load` rejects with `JSONDecodeError`. -/
inductive FileContent where
  | wellformed (j : Json)
  | malformed (raw : String)

/-- The durable storage: `none` when `password_history.json` does not
exist. -/
abbrev HistFile := Option FileContent

/-- The failure surfaced when the history file cannot be parsed
(the `json.JSONDecodeError` that line 27 does not catch). -/
inductive PersistenceError where
  | parseFailure
deriving DecidableEq, Repr

/-- Lines 24–29: `load_history`. Catches only `FileNotFoundError`
(returning the empty list); whatever `json.load` parses is returned
unchecked, and a parse failure propagates. -/
def load_history (fs : HistFile) : Except PersistenceError Json :=
  match fs with
  | none => .ok (.arr [])
  | some (.malformed _) => .error .parseFailure
  | some (.wellformed j) => .ok j

/-- Lines 31–33: `save_history` rewrites the whole file with the
serialized history. -/
def save_history (h : List HistoryEntry) : HistFile :=
  some (.wellformed (historyToJson h))

/-- Lines 92–121: the `generate_password` handler over explicit state.
`g` is the stream of random draws and `now` the formatted current
timestamp.  Returns the password placed in the entry widget (`none` on
the warning path of lines 104–106, where the method returns with no state
change) together with the resulting in-memory history and history file. -/
def generate_password (o : GenerationOptions) (g : Nat → Nat) (now : String)
    (store : List HistoryEntry) (fs : HistFile) :
    Option String × List HistoryEntry × HistFile :=
  let chars := buildCharacterSet o
  if chars.isEmpty then
    (none, store, fs)
  else
    let password := samplePassword chars o.length g
    let strength := check_strength password
    let store' := store ++ [⟨password, now, strengthLabel strength⟩]
    (some password, store', save_history store')

/-- CSV quoting test of `csv.QUOTE_MINIMAL`, the policy `to_csv` uses:
a field is quoted exactly when it contains a delimiter, a quote or a line
break. -/
def csvNeedsQuote (s : String) : Bool :=
  s.data.any (fun c => c = ',' || c = '"' || c = '\n' || c = '\r')

/-- One CSV-encoded field: quoted with inner quotes doubled when needed,
verbatim otherwise. -/
def csvField (s : String) : String :=
  if csvNeedsQuote s then
    String.mk ('"' :: (s.data.flatMap (fun c => if c = '"' then ['"', '"'] else [c])) ++ ['"'])
  else s

/-- One exported row of `to_csv`: the three fields in the column order of
the frame (the key order of the entry dicts). -/
def exportRow (e : HistoryEntry) : String :=
  csvField e.password ++ "," ++ csvField e.timestamp ++ "," ++ csvField e.strength

/-- Lines 152–157: the lines `pd.DataFrame(history).to_csv(filename,
index=False)` writes.  A frame built from a non-empty list of entry dicts
has columns `password,timestamp,strength`; a frame built from `[]` has no
columns, so the header row is empty and there are no data rows. -/
def export_history (h : List HistoryEntry) : List String :=
  match h with
  | [] => [""]
  | _ => "password,timestamp,strength" :: h.map exportRow

/-! ## Helper lemmas -/

/-- With at least one class flag selected, the assembled character set is
non-empty. -/
theorem buildCharacterSet_ne_nil (o : GenerationOptions)
    (hflag : o.upper = true ∨ o.lower = true ∨ o.digits = true ∨ o.symbols = true) :
    buildCharacterSet o ≠ [] := by
  intro h
  rcases hflag with hf | hf | hf | hf <;>
    simp [buildCharacterSet, hf, asciiUppercase, asciiLowercase, asciiDigits,
      symbolChars] at h

/-- Every drawn character belongs to the character set it was drawn from. -/
theorem pick_mem (chars : List Char) (k : Nat) (h : chars ≠ []) :
    pick chars k ∈ chars := by
  have hlen : 0 < chars.length := List.length_pos.mpr h
  have hm : k % chars.length < chars.length := Nat.mod_lt _ hlen
  unfold pick
  rw [List.getD_eq_getElem?_getD, List.getElem?_eq_getElem hm]
  exact List.getElem_mem hm

/-- Sampling performs exactly `length.toNat` draws. -/
theorem samplePassword_length (chars : List Char) (length : Int) (g : Nat → Nat) :
    (samplePassword chars length g).length = length.toNat := by
  simp [samplePassword, String.length]

/-- Every character of a sampled password comes from the character set. -/
theorem samplePassword_mem (chars : List Char) (length : Int) (g : Nat → Nat)
    (h : chars ≠ []) :
    ∀ c ∈ (samplePassword chars length g).data, c ∈ chars := by
  intro c hc
  simp only [samplePassword] at hc
  obtain ⟨i, _, rfl⟩ := List.mem_map.mp hc
  exact pick_mem chars (g i) h

/-- Decoding inverts the serialization of a single entry. -/
theorem jsonToEntry_entryToJson (e : HistoryEntry) :
    jsonToEntry (entryToJson e) = some e := rfl

/-- Decoding inverts the serialization of a list of entries. -/
theorem jsonToEntries_map_entryToJson (h : List HistoryEntry) :
    jsonToEntries (h.map entryToJson) = some h := by
  induction h with
  | nil => rfl
  | cons e t ih => simp [jsonToEntries, jsonToEntry_entryToJson, ih]

/-- A field without delimiter, quote or line-break characters is exported
verbatim. -/
theorem csvField_eq_of_no_delims (s : String) (h : csvNeedsQuote s = false) :
    csvField s = s := by
  unfold csvField
  rw [h]
  simp

/-! ## Claim theorems -/

/-- Claim C1: for every `GenerationOptions` with at least one of the four
class flags true and length ≥ 1, `generate_password` returns a password of
exactly `length` characters, each a member of the concatenation (in the
fixed order uppercase, lowercase, digits, symbols) of exactly the classes
whose flag is true (`buildCharacterSet`), for every draw stream. -/
theorem generate_length_and_membership (o : GenerationOptions) (g : Nat → Nat)
    (now : String) (store : List HistoryEntry) (fs : HistFile)
    (hflag : o.upper = true ∨ o.lower = true ∨ o.digits = true ∨ o.symbols = true)
    (hlen : 1 ≤ o.length) :
    ∃ pwd store' fs',
      generate_password o g now store fs = (some pwd, store', fs') ∧
      (pwd.length : Int) = o.length ∧
      ∀ c ∈ pwd.data, c ∈ buildCharacterSet o := by
  have hne := buildCharacterSet_ne_nil o hflag
  have hemp : (buildCharacterSet o).isEmpty = false := by
    simpa [List.isEmpty_iff] using hne
  refine ⟨samplePassword (buildCharacterSet o) o.length g,
    store ++ [⟨samplePassword (buildCharacterSet o) o.length g, now,
      strengthLabel (check_strength (samplePassword (buildCharacterSet o) o.length g))⟩],
    save_history (store ++ [⟨samplePassword (buildCharacterSet o) o.length g, now,
      strengthLabel (check_strength (samplePassword (buildCharacterSet o) o.length g))⟩]),
    ?_, ?_, ?_⟩
  · simp [generate_password, hemp]
  · rw [samplePassword_length]
    omega
  · exact samplePassword_mem _ _ _ hne

/-- Claim C1 witness: the theorem applied at length 8 with all classes
selected and the all-zeros draw stream. -/
theorem generate_length_and_membership_witness :
    ∃ pwd store' fs',
      generate_password ⟨8, true, true, true, true⟩ (fun _ => 0) "t" [] none =
        (some pwd, store', fs') ∧
      (pwd.length : Int) = (8 : Int) ∧
      ∀ c ∈ pwd.data, c ∈ buildCharacterSet ⟨8, true, true, true, true⟩ :=
  generate_length_and_membership ⟨8, true, true, true, true⟩ (fun _ => 0) "t" [] none
    (Or.inl rfl) (by decide)

/-- Claim C2: `check_strength` is a total function of the password alone;
its five-predicate score is at most 5, scores 0–2 map to Weak, 3–4 to
Medium and 5 to Strong; the empty string scores 0 and is Weak, and
"Ab3!defghij" scores 4 and is Medium. -/
theorem check_strength_spec :
    (∀ password : String, strengthScore password.data ≤ 5) ∧
    (∀ password : String,
      (strengthScore password.data ≤ 2 → check_strength password = .weak) ∧
      (3 ≤ strengthScore password.data → strengthScore password.data ≤ 4 →
        check_strength password = .medium) ∧
      (strengthScore password.data = 5 → check_strength password = .strong)) ∧
    strengthScore ("" : String).data = 0 ∧ check_strength "" = .weak ∧
    strengthScore "Ab3!defghij".data = 4 ∧ check_strength "Ab3!defghij" = .medium := by
  refine ⟨?_, ?_, by decide, by decide, by decide, by decide⟩
  · intro password
    unfold strengthScore
    split_ifs <;> omega
  · intro password
    refine ⟨fun h1 => ?_, fun h3 h4 => ?_, fun h5 => ?_⟩ <;>
      · simp only [check_strength]
        split_ifs <;> first | rfl | omega

/-- Claim C2 witness: the score-to-label mapping applied at the concrete
password "abc". -/
theorem check_strength_spec_witness : check_strength "abc" = .weak :=
  (check_strength_spec.2.1 "abc").1 (by decide)

/-- Claim C3 counterexample: at length 0 (< 1) with all four classes
selected, `generate_password` returns the empty password instead of
failing with `InvalidOptions`. -/
theorem generate_zero_length_counterexample :
    (generate_password ⟨0, true, true, true, true⟩ (fun _ => 0)
      "2024-01-01 00:00:00" [] none).1 = some "" := by decide

/-- Claim C3 amended: `generate_password` fails exactly when the character
set is empty, i.e. when all four class flags are false; it performs no
length validation, so with at least one class selected and length < 1 it
returns the empty password. -/
theorem generate_fails_iff_no_class (o : GenerationOptions) (g : Nat → Nat)
    (now : String) (store : List HistoryEntry) (fs : HistFile) :
    ((generate_password o g now store fs).1 = none ↔
      o.upper = false ∧ o.lower = false ∧ o.digits = false ∧ o.symbols = false) ∧
    (o.length < 1 →
      (o.upper = true ∨ o.lower = true ∨ o.digits = true ∨ o.symbols = true) →
      (generate_password o g now store fs).1 = some "") := by
  constructor
  · constructor
    · intro h
      by_contra hflag
      have hflag' : o.upper = true ∨ o.lower = true ∨ o.digits = true ∨
          o.symbols = true := by
        rcases ho1 : o.upper <;> rcases ho2 : o.lower <;> rcases ho3 : o.digits <;>
          rcases ho4 : o.symbols <;> simp_all
      have hemp : (buildCharacterSet o).isEmpty = false := by
        simpa [List.isEmpty_iff] using buildCharacterSet_ne_nil o hflag'
      simp [generate_password, hemp] at h
    · intro ⟨h1, h2, h3, h4⟩
      simp [generate_password, buildCharacterSet, h1, h2, h3, h4]
  · intro hlen hflag
    have hemp : (buildCharacterSet o).isEmpty = false := by
      simpa [List.isEmpty_iff] using buildCharacterSet_ne_nil o hflag
    have htn : o.length.toNat = 0 := by omega
    simp [generate_password, hemp, samplePassword, htn]

/-- Claim C3 amended witness: the amended theorem applied at length 0 with
all classes selected. -/
theorem generate_fails_iff_no_class_witness :
    (generate_password ⟨0, true, true, true, true⟩ (fun _ => 0) "t" [] none).1 =
      some "" :=
  (generate_fails_iff_no_class ⟨0, true, true, true, true⟩ (fun _ => 0) "t" [] none).2
    (by decide) (Or.inl rfl)

/-- Claim C4: with all four class flags false, `generate_password` takes
the warning path for every length and draw stream: no password is
produced, and both the in-memory history and the history file are
returned unchanged. -/
theorem generate_no_class_no_state_change (length : Int) (g : Nat → Nat)
    (now : String) (store : List HistoryEntry) (fs : HistFile) :
    generate_password ⟨length, false, false, false, false⟩ g now store fs =
      (none, store, fs) := rfl

/-- Claim C5: persist-then-reload round trip.  After `save_history`
rewrites the file with N entries, `load_history` succeeds with exactly
the serialized form of those N entries, and decoding that form yields the
same N entries in the same order with the same password, timestamp and
strength values. -/
theorem load_after_save_roundtrip (h : List HistoryEntry) :
    load_history (save_history h) = .ok (historyToJson h) ∧
    jsonToHistory (historyToJson h) = some h :=
  ⟨rfl, jsonToEntries_map_entryToJson h⟩

/-- Claim C6: the history store is append-only.  Whenever
`generate_password` succeeds, the resulting store is the prior entries,
unchanged and in their original order, followed by exactly one new entry,
and the file holds exactly the persisted new store. -/
theorem record_appends_single_entry (o : GenerationOptions) (g : Nat → Nat)
    (now : String) (store : List HistoryEntry) (fs : HistFile) (password : String)
    (store' : List HistoryEntry) (fs' : HistFile)
    (hok : generate_password o g now store fs = (some password, store', fs')) :
    store' = store ++ [⟨password, now, strengthLabel (check_strength password)⟩] ∧
    fs' = save_history store' := by
  simp only [generate_password] at hok
  split at hok
  · simp at hok
  · simp only [Prod.mk.injEq, Option.some.injEq] at hok
    obtain ⟨hp, hs, hf⟩ := hok
    subst hp
    subst hs
    subst hf
    exact ⟨rfl, rfl⟩

/-- Claim C6 witness: the theorem applied to a successful generation at
length 4 from the empty store. -/
theorem record_appends_single_entry_witness :
    ([⟨"AAAA", "t", strengthLabel (check_strength "AAAA")⟩] : List HistoryEntry) =
      [] ++ [⟨"AAAA", "t", strengthLabel (check_strength "AAAA")⟩] ∧
    save_history [⟨"AAAA", "t", strengthLabel (check_strength "AAAA")⟩] =
      save_history [⟨"AAAA", "t", strengthLabel (check_strength "AAAA")⟩] :=
  record_appends_single_entry ⟨4, true, true, false, false⟩ (fun _ => 0) "t" [] none
    "AAAA" _ _ rfl

/-- Claim C7 counterexample: on the empty store the export is a single
empty line (the frame has no columns), not the header row
`password,timestamp,strength`. -/
theorem export_empty_store_counterexample :
    export_history [] = [""] ∧
    export_history [] ≠ ["password,timestamp,strength"] :=
  ⟨rfl, by decide⟩

/-- Claim C7 amended: for every store of K ≥ 1 entries, the export is
exactly K+1 lines: the header `password,timestamp,strength` followed by
one CSV row per entry in store order, whose fields are the stored values,
written verbatim whenever they contain no comma, quote or line break; on
the empty store the export is a single empty line. -/
theorem export_nonempty_lines (h : List HistoryEntry) (hne : h ≠ []) :
    export_history h = "password,timestamp,strength" :: h.map exportRow ∧
    (export_history h).length = h.length + 1 ∧
    ∀ e ∈ h, csvNeedsQuote e.password = false → csvNeedsQuote e.timestamp = false →
      csvNeedsQuote e.strength = false →
      exportRow e = e.password ++ "," ++ e.timestamp ++ "," ++ e.strength := by
  match h with
  | [] => exact absurd rfl hne
  | a :: t =>
    refine ⟨rfl, by simp [export_history], ?_⟩
    intro e he hp ht hs
    unfold exportRow
    rw [csvField_eq_of_no_delims _ hp, csvField_eq_of_no_delims _ ht,
      csvField_eq_of_no_delims _ hs]

/-- Claim C7 amended witness: the amended theorem applied to a singleton
store. -/
theorem export_nonempty_lines_witness :
    export_history [⟨"Ab3!", "2024-01-01 00:00:00", "abc"⟩] =
      "password,timestamp,strength" ::
        ([⟨"Ab3!", "2024-01-01 00:00:00", "abc"⟩] : List HistoryEntry).map exportRow ∧
    (export_history [⟨"Ab3!", "2024-01-01 00:00:00", "abc"⟩]).length =
      ([⟨"Ab3!", "2024-01-01 00:00:00", "abc"⟩] : List HistoryEntry).length + 1 ∧
    ∀ e ∈ ([⟨"Ab3!", "2024-01-01 00:00:00", "abc"⟩] : List HistoryEntry),
      csvNeedsQuote e.password = false → csvNeedsQuote e.timestamp = false →
      csvNeedsQuote e.strength = false →
      exportRow e = e.password ++ "," ++ e.timestamp ++ "," ++ e.strength :=
  export_nonempty_lines [⟨"Ab3!", "2024-01-01 00:00:00", "abc"⟩] (by decide)

/-- Claim C8: `load_history` returns the empty store (the empty JSON
array, which decodes to no entries) when the file does not exist, fails
on malformed content, succeeds on any parseable content, and the failure
cases are exactly the malformed-content files. -/
theorem load_history_spec :
    load_history none = .ok (.arr []) ∧
    jsonToHistory (.arr []) = some [] ∧
    (∀ raw : String, load_history (some (.malformed raw)) = .error .parseFailure) ∧
    (∀ j : Json, load_history (some (.wellformed j)) = .ok j) ∧
    (∀ fs : HistFile, (∃ e, load_history fs = .error e) ↔
      ∃ raw, fs = some (.malformed raw)) := by
  refine ⟨rfl, rfl, fun _ => rfl, fun _ => rfl, fun fs => ?_⟩
  constructor
  · rintro ⟨e, he⟩
    match fs with
    | none => exact Except.noConfusion he
    | some (.wellformed j) => exact Except.noConfusion he
    | some (.malformed raw) => exact ⟨raw, rfl⟩
  · rintro ⟨raw, rfl⟩
    exact ⟨.parseFailure, rfl⟩

/-- Claim C9: generation gives no per-class coverage guarantee.  With
uppercase and lowercase both selected and length 4, the all-zeros draw
stream yields "AAAA", which contains no lowercase character even though
lowercase letters were selected and available in the character set. -/
theorem generate_no_class_coverage :
    (generate_password ⟨4, true, true, false, false⟩ (fun _ => 0) "t" [] none).1 =
      some "AAAA" ∧
    "AAAA".data.all (fun c => !c.isLower) = true ∧
    'a' ∈ buildCharacterSet ⟨4, true, true, false, false⟩ :=
  ⟨by decide, by decide, by decide⟩

/-- Claim C10: the symbol point of `check_strength` is awarded exactly for
membership in the fixed symbol literal: a password with no character in
that set gets no symbol point, and a 30-character password of only tildes
and spaces scores exactly 1 (the length point) and is Weak. -/
theorem no_symbol_point_outside_set (password : String)
    (hno : ∀ c ∈ password.data, c ∉ symbolChars) :
    strengthScore password.data =
      (if 12 ≤ password.data.length then 1 else 0)
        + (if password.data.any (fun c => c.isLower) then 1 else 0)
        + (if password.data.any (fun c => c.isUpper) then 1 else 0)
        + (if password.data.any (fun c => c.isDigit) then 1 else 0) ∧
    strengthScore (List.replicate 15 '~' ++ List.replicate 15 ' ') = 1 ∧
    check_strength (String.mk (List.replicate 15 '~' ++ List.replicate 15 ' ')) = .weak := by
  refine ⟨?_, by decide, by decide⟩
  have hsym : password.data.any (fun c => symbolChars.contains c) = false := by
    rw [List.any_eq_false]
    intro c hc
    simpa using hno c hc
  unfold strengthScore
  rw [hsym]
  simp

/-- Claim C10 witness: the theorem applied at the concrete password
"~ ~", which contains non-alphanumeric characters but none from the
symbol set. -/
theorem no_symbol_point_outside_set_witness :
    strengthScore "~ ~".data =
      (if 12 ≤ "~ ~".data.length then 1 else 0)
        + (if "~ ~".data.any (fun c => c.isLower) then 1 else 0)
        + (if "~ ~".data.any (fun c => c.isUpper) then 1 else 0)
        + (if "~ ~".data.any (fun c => c.isDigit) then 1 else 0) ∧
    strengthScore (List.replicate 15 '~' ++ List.replicate 15 ' ') = 1 ∧
    check_strength (String.mk (List.replicate 15 '~' ++ List.replicate 15 ' ')) = .weak :=
  no_symbol_point_outside_set "~ ~" (by decide)

end PasswordGenerator
